import Mathlib

/-!
Verification of the OpenRouter multimodal MCP gateway (Express server wrapping
a line-delimited JSON-RPC subprocess, plus an OAuth 2.1 authorization server).

The development shallowly embeds the relevant server modules:

* `server/utils/tokenStorage.js` (in-memory backend) — `TokenStore` and the
  functions `storeAccessToken`, `storeAuthorizationCode`,
  `consumeAuthorizationCode`, `getAccessToken`, `getRefreshToken`,
  `revokeRefreshToken`, `deleteToken`, `cleanupExpiredTokens`.
* `server/utils/tokenStorageDB.js` (SQLite backend) — `DBState` and
  `cleanupExpiredTokensDB` (the three DELETE statements of its sweep).
* `server/routes/oauth.js` — the `authorization_code` and `refresh_token`
  branches of `POST /oauth/token` (`authCodeGrant`, `refreshGrant`).
* `server/middleware/auth.js` — `verifyBearerToken`.
* `server/sessionManager.js` — `getOrCreateSession`.
* `server/mcpHandler.js` — `handleResponse` (the stdout line scanner:
  `splitChunkLines`, `processLine`, `processLines`) — and the
  `responseTimeout` handler of `POST /mcp` in `server/routes/mcp.js`
  (`fireResponseTimeout`).

JavaScript `Map` objects are modelled as association lists (`mlookup`,
`mset`, `merase`); wall-clock time is an explicit `now : Nat` (milliseconds);
the SHA-256/base64url digest and `JSON.parse`/`jwt.verify` (external
library calls) are function parameters of the definitions that invoke them.
-/

namespace ORMcp

/-! ## Association-list maps (the JavaScript `Map` objects) -/

/-- Lookup in an association list, first binding wins (as `Map.get`). -/
def mlookup {κ α : Type} [DecidableEq κ] : List (κ × α) → κ → Option α
  | [], _ => none
  | (k₁, v) :: t, k => if k₁ = k then some v else mlookup t k

/-- Remove every binding of a key (as `Map.delete`). -/
def merase {κ α : Type} [DecidableEq κ] : List (κ × α) → κ → List (κ × α)
  | [], _ => []
  | (k₁, v) :: t, k => if k₁ = k then merase t k else (k₁, v) :: merase t k

/-- Overwrite the binding of a key (as `Map.set`). -/
def mset {κ α : Type} [DecidableEq κ] (l : List (κ × α)) (k : κ) (v : α) : List (κ × α) :=
  (k, v) :: merase l k

/-! ## Token Store — in-memory backend (`server/utils/tokenStorage.js`) -/

/-- Value stored in the `tokenStore` map:
`{ apiKey, userId, clientId, scopes, refreshToken, expiresAt, createdAt }`. -/
structure AccessTokenData where
  apiKey : String
  userId : String
  clientId : String
  scopes : List String
  refreshToken : String
  expiresAt : Option Nat
  createdAt : Nat
deriving Repr, DecidableEq

/-- Value stored in the `refreshTokenStore` map:
`{ userId, clientId, scopes, accessToken, createdAt }`. -/
structure RefreshTokenData where
  userId : String
  clientId : String
  scopes : List String
  accessToken : String
  createdAt : Nat
deriving Repr, DecidableEq

/-- Value stored in the `authorizationCodes` map:
`{ userId, apiKey, clientId, redirectUri, codeChallenge, codeChallengeMethod,
scopes, expiresAt, createdAt }`. -/
structure AuthCodeData where
  userId : String
  apiKey : String
  clientId : String
  redirectUri : String
  codeChallenge : String
  codeChallengeMethod : String
  scopes : List String
  expiresAt : Nat
  createdAt : Nat
deriving Repr, DecidableEq

/-- The four module-level `Map`s of `tokenStorage.js`. -/
structure TokenStore where
  tokenStore : List (String × AccessTokenData)
  refreshTokenStore : List (String × RefreshTokenData)
  userTokenMap : List (String × List String)
  authorizationCodes : List (String × AuthCodeData)
deriving Repr, DecidableEq

/-- Function `storeAccessToken(accessToken, refreshToken, apiKey, userId, clientId,
scopes = [], expiresAt = null)`.  A falsy (empty) `refreshToken` skips the
refresh mapping, mirroring `if (refreshToken)`. -/
def storeAccessToken (st : TokenStore) (now : Nat)
    (accessToken refreshToken apiKey userId clientId : String)
    (scopes : List String) (expiresAt : Option Nat) : TokenStore :=
  let record : AccessTokenData := ⟨apiKey, userId, clientId, scopes, refreshToken, expiresAt, now⟩
  let st₁ := { st with tokenStore := mset st.tokenStore accessToken record }
  let refreshRecord : RefreshTokenData := ⟨userId, clientId, scopes, accessToken, now⟩
  let st₂ :=
    if refreshToken ≠ "" then
      { st₁ with refreshTokenStore := mset st₁.refreshTokenStore refreshToken refreshRecord }
    else st₁
  let userTokens := (mlookup st₂.userTokenMap userId).getD []
  let userTokens₂ := if accessToken ∈ userTokens then userTokens else userTokens ++ [accessToken]
  { st₂ with userTokenMap := mset st₂.userTokenMap userId userTokens₂ }

/-- Function `storeAuthorizationCode(code, userId, apiKey, clientId, redirectUri,
codeChallenge, codeChallengeMethod, scopes, expiresIn = 600)`.  (The
`setTimeout` deleting the code after `expiresIn` seconds is a timer, not part
of this state transition.) -/
def storeAuthorizationCode (st : TokenStore) (now : Nat)
    (code userId apiKey clientId redirectUri codeChallenge codeChallengeMethod : String)
    (scopes : List String) (expiresIn : Nat) : TokenStore :=
  let record : AuthCodeData :=
    ⟨userId, apiKey, clientId, redirectUri, codeChallenge, codeChallengeMethod,
     scopes, now + expiresIn * 1000, now⟩
  { st with authorizationCodes := mset st.authorizationCodes code record }

/-- Function `consumeAuthorizationCode(code, codeVerifier)`.  `hash` stands for
`crypto.createHash("sha256").update(·).digest("base64url")`.  Returns the
code data (and the updated maps) or `none`. -/
def consumeAuthorizationCode (hash : String → String) (st : TokenStore) (now : Nat)
    (code codeVerifier : String) : Option AuthCodeData × TokenStore :=
  match mlookup st.authorizationCodes code with
  | none => (none, st)
  | some codeData =>
    if now > codeData.expiresAt then
      (none, { st with authorizationCodes := merase st.authorizationCodes code })
    else if codeData.codeChallengeMethod = "S256" ∧ hash codeVerifier ≠ codeData.codeChallenge then
      (none, st)
    else
      (some codeData, { st with authorizationCodes := merase st.authorizationCodes code })

/-- Function `deleteToken(token)`: removes the access-token record and prunes the
per-user token set (the in-memory variant does not touch `refreshTokenStore`). -/
def deleteToken (st : TokenStore) (token : String) : TokenStore :=
  match mlookup st.tokenStore token with
  | none => st
  | some tokenData =>
    let st₁ := { st with tokenStore := merase st.tokenStore token }
    match mlookup st₁.userTokenMap tokenData.userId with
    | none => st₁
    | some userTokens =>
      let remaining := userTokens.filter (fun t => t ≠ token)
      if remaining.isEmpty then
        { st₁ with userTokenMap := merase st₁.userTokenMap tokenData.userId }
      else
        { st₁ with userTokenMap := mset st₁.userTokenMap tokenData.userId remaining }

/-- Function `getAccessToken(token)`: an expired record is deleted and `null` is
returned instead of the stale data. -/
def getAccessToken (st : TokenStore) (now : Nat) (token : String) :
    Option AccessTokenData × TokenStore :=
  match mlookup st.tokenStore token with
  | none => (none, st)
  | some tokenData =>
    match tokenData.expiresAt with
    | some e => if now > e then (none, deleteToken st token) else (some tokenData, st)
    | none => (some tokenData, st)

/-- Function `getRefreshToken(refreshToken)`: a pure lookup. -/
def getRefreshToken (st : TokenStore) (refreshToken : String) : Option RefreshTokenData :=
  mlookup st.refreshTokenStore refreshToken

/-- Function `revokeRefreshToken(refreshToken)`: deletes the linked access token and
the refresh-token mapping. -/
def revokeRefreshToken (st : TokenStore) (refreshToken : String) : TokenStore :=
  match mlookup st.refreshTokenStore refreshToken with
  | none => st
  | some refreshData =>
    let st₁ := deleteToken st refreshData.accessToken
    { st₁ with refreshTokenStore := merase st₁.refreshTokenStore refreshToken }

/-- Condition `data.expiresAt && now > data.expiresAt` — the expiry test of the
in-memory sweep. -/
def isExpired (now : Nat) (d : AccessTokenData) : Bool :=
  match d.expiresAt with
  | some e => now > e
  | none => false

/-- In-memory `cleanupExpiredTokens()`: collects the expired access tokens
and runs `deleteToken` on each (the interval driving it every 5 minutes is
external).  Note it touches only `tokenStore`/`userTokenMap`. -/
def cleanupExpiredTokens (st : TokenStore) (now : Nat) : TokenStore :=
  let expired := (st.tokenStore.filter (fun p => isExpired now p.2)).map (fun p => p.1)
  expired.foldl (fun acc token => deleteToken acc token) st

/-! ## Token Store — SQLite backend sweep (`server/utils/tokenStorageDB.js`) -/

/-- The three tables of the SQLite backend (`access_tokens`, `refresh_tokens`,
`authorization_codes`), keyed by their primary keys. -/
structure DBState where
  accessTokens : List (String × AccessTokenData)
  refreshTokens : List (String × RefreshTokenData)
  authorizationCodes : List (String × AuthCodeData)
deriving Repr, DecidableEq

/-- SQLite `cleanupExpiredTokens()`:
`DELETE FROM access_tokens WHERE expires_at IS NOT NULL AND expires_at < now`,
then `DELETE FROM refresh_tokens WHERE access_token NOT IN (SELECT token FROM
access_tokens)`, then `DELETE FROM authorization_codes WHERE expires_at < now`. -/
def cleanupExpiredTokensDB (db : DBState) (now : Nat) : DBState :=
  let db₁ := { db with accessTokens :=
    db.accessTokens.filter (fun p =>
      match p.2.expiresAt with
      | some e => ¬ e < now
      | none => true) }
  let db₂ := { db₁ with refreshTokens :=
    db₁.refreshTokens.filter (fun p => (mlookup db₁.accessTokens p.2.accessToken).isSome) }
  { db₂ with authorizationCodes :=
    db₂.authorizationCodes.filter (fun p => ¬ p.2.expiresAt < now) }

/-! ## `POST /oauth/token` (`server/routes/oauth.js`) -/

/-- HTTP outcome of the token endpoint: the 200 JSON body or the
`{error, error_description}` body with its status code. -/
inductive TokenResult where
  | success (accessToken : String) (tokenType : String) (expiresIn : Nat)
      (refreshToken : String) (scope : String)
  | oauthError (status : Nat) (error : String) (errorDescription : String)
deriving Repr, DecidableEq

/-- The `authorization_code` branch of `POST /oauth/token`.  `newAccessToken`
and `newRefreshToken` stand for the values produced by `generateAccessToken`
and `generateRefreshToken`; empty strings model falsy/absent body fields.
The optional `client_secret` verification is elided (it only adds an extra
rejection path before the code is consumed).  Note `storeAccessToken` is
called without an `expiresAt` argument, so the record is stored with
`expiresAt = none` even though `expires_in: 3600` is returned. -/
def authCodeGrant (hash : String → String) (st : TokenStore) (now : Nat)
    (code redirectUri codeVerifier newAccessToken newRefreshToken : String) :
    TokenResult × TokenStore :=
  if code = "" ∨ redirectUri = "" ∨ codeVerifier = "" then
    (.oauthError 400 "invalid_request" "Missing required parameters", st)
  else
    match consumeAuthorizationCode hash st now code codeVerifier with
    | (none, st₁) =>
      (.oauthError 400 "invalid_grant" "Invalid or expired authorization code", st₁)
    | (some codeData, st₁) =>
      if codeData.redirectUri ≠ redirectUri then
        (.oauthError 400 "invalid_request" "Redirect URI mismatch", st₁)
      else
        let st₂ := storeAccessToken st₁ now newAccessToken newRefreshToken
          codeData.apiKey codeData.userId codeData.clientId codeData.scopes none
        (.success newAccessToken "Bearer" 3600 newRefreshToken
          (String.intercalate " " codeData.scopes), st₂)

/-- The `refresh_token` branch of `POST /oauth/token`: resolves the refresh
record, looks up the linked access token (for the API key), stores a new
pair (again with no `expiresAt`), then revokes the old refresh token. -/
def refreshGrant (st : TokenStore) (now : Nat)
    (refreshToken newAccessToken newRefreshToken : String) :
    TokenResult × TokenStore :=
  if refreshToken = "" then
    (.oauthError 400 "invalid_request" "Missing refresh_token", st)
  else
    match getRefreshToken st refreshToken with
    | none => (.oauthError 400 "invalid_grant" "Invalid or expired refresh token", st)
    | some refreshData =>
      match getAccessToken st now refreshData.accessToken with
      | (none, st₁) =>
        (.oauthError 400 "invalid_grant" "Associated access token not found", st₁)
      | (some oldTokenData, st₁) =>
        let st₂ := storeAccessToken st₁ now newAccessToken newRefreshToken
          oldTokenData.apiKey refreshData.userId refreshData.clientId refreshData.scopes none
        let st₃ := revokeRefreshToken st₂ refreshToken
        (.success newAccessToken "Bearer" 3600 newRefreshToken
          (String.intercalate " " refreshData.scopes), st₃)

/-! ## Auth middleware (`server/middleware/auth.js`) -/

/-- The principal attached as `req.user` on success. -/
structure AuthUser where
  userId : String
  apiKey : String
  clientId : String
  scopes : List String
  token : String
deriving Repr, DecidableEq

/-- Decoded JWT payload (what `jwt.verify` returns when it succeeds). -/
structure JwtClaims where
  sub : String
  clientId : String
  scope : String
  iat : Nat
  exp : Nat
deriving Repr, DecidableEq

/-- Outcome of `verifyBearerToken`. -/
inductive AuthResult where
  | authorized (user : AuthUser)
  | unauthorized (status : Nat) (message : String)
deriving Repr, DecidableEq

/-- Middleware `verifyBearerToken(req, res, next)`: extracts the bearer token, tries JWT
verification (`verifyJwt` stands for `jwt.verify` with the server secret); a
valid JWT still requires a matching store record; on JWT failure it falls
back to the opaque store lookup. -/
def verifyBearerToken (verifyJwt : String → Option JwtClaims) (st : TokenStore)
    (now : Nat) (authHeader : Option String) : AuthResult × TokenStore :=
  match authHeader with
  | none =>
    (.unauthorized 401 "Missing or invalid Authorization header. Expected: Bearer <token>", st)
  | some h =>
    if h.take 7 ≠ "Bearer " then
      (.unauthorized 401 "Missing or invalid Authorization header. Expected: Bearer <token>", st)
    else
      let token := h.drop 7
      match verifyJwt token with
      | some _ =>
        match getAccessToken st now token with
        | (none, st₁) => (.unauthorized 401 "Token not found in storage", st₁)
        | (some tokenData, st₁) =>
          (.authorized ⟨tokenData.userId, tokenData.apiKey, tokenData.clientId,
            tokenData.scopes, token⟩, st₁)
      | none =>
        match getAccessToken st now token with
        | (none, st₁) => (.unauthorized 401 "Invalid or expired token", st₁)
        | (some tokenData, st₁) =>
          (.authorized ⟨tokenData.userId, tokenData.apiKey, tokenData.clientId,
            tokenData.scopes, token⟩, st₁)

/-! ## Session Registry (`server/sessionManager.js`) -/

/-- A pending request entry of `sessionData.pendingRequests`
(the `res`/timer handles are represented by the delivery events below). -/
structure PendingRequest where
  method : String
  timestamp : Nat
deriving Repr, DecidableEq

/-- One entry of `activeSessions`.  `sseOpen` models
`sessionData.sseRes && !sessionData.sseRes.writableEnded`. -/
structure Session where
  userId : String
  apiKey : String
  initialized : Bool
  initializing : Bool
  pendingRequests : List (Nat × PendingRequest)
  responseBuffer : String
  listenersSetup : Bool
  lastActivity : Nat
  createdAt : Nat
  sseOpen : Bool
deriving Repr, DecidableEq

/-- Function `getOrCreateSession(sessionId, req = null)`.  `user` is `req.user` when a
request object with an authenticated principal is passed (`none` both for a
null `req` and for a `req` with no `user`).  An existing session is checked
against the caller's principal only when one is supplied; creating a session
requires a principal with a truthy (non-empty) `apiKey`.  Timer arming is
represented by the `lastActivity` reset. -/
def getOrCreateSession (sessions : List (String × Session)) (sessionId : String)
    (user : Option AuthUser) (now : Nat) :
    Except String (Session × List (String × Session)) :=
  match mlookup sessions sessionId with
  | some session =>
    match user with
    | some u =>
      if session.userId ≠ u.userId then
        .error "Session belongs to a different user"
      else
        let s₁ := { session with lastActivity := now }
        .ok (s₁, mset sessions sessionId s₁)
    | none =>
      let s₁ := { session with lastActivity := now }
      .ok (s₁, mset sessions sessionId s₁)
  | none =>
    match user with
    | none => .error "Authentication required. Please authenticate via OAuth first."
    | some u =>
      if u.apiKey = "" then
        .error "Authentication required. Please authenticate via OAuth first."
      else
        let s : Session :=
          ⟨u.userId, u.apiKey, false, false, [], "", false, now, now, false⟩
        .ok (s, mset sessions sessionId s)

/-! ## Protocol Bridge (`server/mcpHandler.js` and `server/routes/mcp.js`) -/

/-- Shape of a parsed JSON-RPC line, as `handleResponse` inspects it:
`parsed.id`, `parsed.method`, and whether `parsed.error` is present. -/
structure JsonRpcMsg where
  id : Option Nat
  method : Option String
  isError : Bool
deriving Repr, DecidableEq

/-- Observable effects of the bridge: `respond id initInjected` is
`pendingRequest.res.json(parsed)` (with `initInjected` set when the
initialize special case patched the payload); `sseForward m` is a
notification written to the SSE stream. -/
inductive BridgeEvent where
  | respond (id : Nat) (initInjected : Bool)
  | sseForward (method : String)
deriving Repr, DecidableEq

/-- JavaScript `String.prototype.trim()` on the character list (structural,
so concrete instances compute in the kernel, unlike `String.trim`). -/
def strTrim (s : String) : String :=
  ⟨(((s.data.dropWhile Char.isWhitespace).reverse.dropWhile Char.isWhitespace).reverse)⟩

/-- JavaScript `String.prototype.split("\n")` on the character list:
always returns at least one (possibly empty) segment. -/
def splitNl : List Char → List (List Char)
  | [] => [[]]
  | c :: t =>
    let r := splitNl t
    if c = '\n' then [] :: r
    else (c :: r.headD []) :: r.tail

/-- The body of `handleResponse`'s `for` loop for one complete line.
`parseJson` stands for `JSON.parse` (`none` = the call threw).  The `Bool`
is the early `return` executed after a response is delivered to a pending
request: `true` aborts the rest of the chunk. -/
def processLine (parseJson : String → Option JsonRpcMsg) (s : Session) (line : String) :
    Session × List BridgeEvent × Bool :=
  let trimmedLine := strTrim line
  if trimmedLine = "" then (s, [], false)
  else
    match parseJson trimmedLine with
    | none => (s, [], false)
    | some parsed =>
      match parsed.id with
      | some msgId =>
        match mlookup s.pendingRequests msgId with
        | some pendingRequest =>
          let s₁ := { s with pendingRequests := merase s.pendingRequests msgId }
          if pendingRequest.method = "initialize" ∧ ¬ parsed.isError then
            ({ s₁ with initialized := true, initializing := false },
             [.respond msgId true], true)
          else
            (s₁, [.respond msgId false], true)
        | none => (s, [], false)
      | none =>
        match parsed.method with
        | some m => if s.sseOpen then (s, [.sseForward m], false) else (s, [], false)
        | none => (s, [], false)

/-- Statement `let lines = buffer.split("\n"); buffer = lines.pop() || ""`:
the complete lines of the accumulated data and the retained remainder. -/
def splitChunkLines (buffer chunk : String) : List String × String :=
  let lines := (splitNl (buffer ++ chunk).data).map String.mk
  (lines.dropLast, lines.getLast?.getD "")

/-- The `for (const line of lines)` loop, including the early `return`. -/
def processLines (parseJson : String → Option JsonRpcMsg) :
    Session → List String → Session × List BridgeEvent
  | s, [] => (s, [])
  | s, line :: rest =>
    let step := processLine parseJson s line
    if step.2.2 then (step.1, step.2.1)
    else
      let next := processLines parseJson step.1 rest
      (next.1, step.2.1 ++ next.2)

/-- Listener `handleResponse(data)`: append the chunk to the leftover buffer, split on
newline, retain the trailing partial line, process the complete lines. -/
def handleResponse (parseJson : String → Option JsonRpcMsg) (s : Session)
    (chunk : String) : Session × List BridgeEvent :=
  let split := splitChunkLines s.responseBuffer chunk
  let s₁ := { s with responseBuffer := split.2 }
  processLines parseJson s₁ split.1

/-- The `responseTimeout` callback of `POST /mcp` for a request with id
`msgId`: if the id is still pending, remove exactly that entry and send that
caller a 408 JSON-RPC error with code `-32001`; otherwise do nothing.  The
returned option is the `(id, error code)` delivered to the waiting caller. -/
def fireResponseTimeout (s : Session) (msgId : Nat) : Session × Option (Nat × Int) :=
  match mlookup s.pendingRequests msgId with
  | some _ =>
    ({ s with pendingRequests := merase s.pendingRequests msgId }, some (msgId, -32001))
  | none => (s, none)

/-! ## Concrete states used by the witnesses and counterexamples -/

/-- A store holding one authorization code whose `codeChallengeMethod` is
`"plain"` — constructible because `storeAuthorizationCode` accepts the method
as an arbitrary argument. -/
def plainMethodStore : TokenStore :=
  ⟨[], [], [],
   [("codeA", ⟨"u1", "k1", "cl1", "https://a/cb", "challengeX", "plain", ["mcp:read"], 1000, 0⟩)]⟩

/-- A store holding one `"S256"` code (challenge = digest of `"v"` under the
digest function `s ↦ "H-" ++ s`). -/
def s256Store : TokenStore :=
  ⟨[], [], [],
   [("c1", ⟨"u1", "k1", "cl", "https://a/cb", "H-v", "S256", ["mcp:read"], 1000, 0⟩)]⟩

/-- A registry holding one session owned by `alice`. -/
def aliceSessions : List (String × Session) :=
  [("sid1", ⟨"alice", "keyA", true, false, [], "", true, 0, 0, false⟩)]

/-- A session with two pending requests, ids 1 and 2. -/
def twoPendingSession : Session :=
  ⟨"u1", "k1", true, false, [(1, ⟨"tools/call", 0⟩), (2, ⟨"tools/call", 10⟩)], "", true, 0, 0, true⟩

/-- A store holding the pair issued in `oldStore` — access token `"AT"`
linked to refresh token `"RT"` for user `u1`. -/
def oldPairStore : TokenStore :=
  ⟨[("AT", ⟨"k1", "u1", "cl", ["mcp:read"], "RT", none, 5⟩)],
   [("RT", ⟨"u1", "cl", ["mcp:read"], "AT", 5⟩)],
   [("u1", ["AT"])], []⟩

/-- A store holding the `"S256"` code `"c1"` as issued by the callback
handler, used to witness the grant-level theorems. -/
def issuedCodeStore : TokenStore :=
  ⟨[], [], [],
   [("c1", ⟨"u1", "k1", "cl", "https://a/cb", "H-v", "S256", ["mcp:read"], 1000, 0⟩)]⟩

/-- Parser used at the C5 failing input: the chunk lines `"r1"` and `"r2"`
parse as responses with ids 1 and 2. -/
def twoRespParse : String → Option JsonRpcMsg := fun l =>
  if l = "r1" then some ⟨some 1, none, false⟩
  else if l = "r2" then some ⟨some 2, none, false⟩
  else none

/-- A store at time 100 holding an expired access token `"at1"`, a refresh
token `"rt1"` whose access token is gone (orphaned), and an expired
authorization code `"ac1"`. -/
def staleStore : TokenStore :=
  ⟨[("at1", ⟨"k1", "u1", "cl", [], "", some 10, 0⟩)],
   [("rt1", ⟨"u1", "cl", [], "gone", 0⟩)],
   [("u1", ["at1"])],
   [("ac1", ⟨"u1", "k1", "cl", "https://a/cb", "X", "S256", [], 10, 0⟩)]⟩

/-- The SQLite tables with the same stale rows as `staleStore`. -/
def staleDB : DBState :=
  ⟨[("at1", ⟨"k1", "u1", "cl", [], "", some 10, 0⟩)],
   [("rt1", ⟨"u1", "cl", [], "gone", 0⟩)],
   [("ac1", ⟨"u1", "k1", "cl", "https://a/cb", "X", "S256", [], 10, 0⟩)]⟩

/-! ## Lemmas about the map and store operations -/

theorem mlookup_merase {κ α : Type} [DecidableEq κ] (l : List (κ × α)) (k k₂ : κ) :
    mlookup (merase l k) k₂ = if k₂ = k then none else mlookup l k₂ := by
  induction l with
  | nil => simp [merase, mlookup]
  | cons p t ih =>
    obtain ⟨k₁, v⟩ := p
    by_cases hp : k₁ = k
    · subst hp
      simp only [merase, if_pos rfl, mlookup]
      by_cases hk : k₂ = k₁
      · subst hk
        simp [ih]
      · simp [hk, Ne.symm hk, ih]
    · simp only [merase, if_neg hp, mlookup]
      by_cases hpk : k₁ = k₂
      · subst hpk
        simp [hp]
      · simp [if_neg hpk, ih]

theorem mlookup_merase_self {κ α : Type} [DecidableEq κ] (l : List (κ × α)) (k : κ) :
    mlookup (merase l k) k = none := by
  simp [mlookup_merase]

theorem mlookup_merase_ne {κ α : Type} [DecidableEq κ] (l : List (κ × α)) {k k₂ : κ}
    (h : k₂ ≠ k) : mlookup (merase l k) k₂ = mlookup l k₂ := by
  simp [mlookup_merase, h]

theorem mlookup_mset_self {κ α : Type} [DecidableEq κ] (l : List (κ × α)) (k : κ) (v : α) :
    mlookup (mset l k v) k = some v := by
  simp [mset, mlookup]

theorem mlookup_mset_ne {κ α : Type} [DecidableEq κ] (l : List (κ × α)) {k k₂ : κ} (v : α)
    (h : k₂ ≠ k) : mlookup (mset l k v) k₂ = mlookup l k₂ := by
  rw [mset, mlookup, if_neg (fun hh => h hh.symm)]
  exact mlookup_merase_ne l h

theorem mlookup_some_mem {κ α : Type} [DecidableEq κ] {l : List (κ × α)} {k : κ} {v : α}
    (h : mlookup l k = some v) : (k, v) ∈ l := by
  induction l with
  | nil => simp [mlookup] at h
  | cons p t ih =>
    obtain ⟨k₁, v₁⟩ := p
    by_cases hp : k₁ = k
    · subst hp
      simp [mlookup] at h
      subst h
      exact List.mem_cons_self _ _
    · simp [mlookup, hp] at h
      exact List.mem_cons_of_mem _ (ih h)

theorem mlookup_filter_some {κ α : Type} [DecidableEq κ] {p : κ × α → Bool}
    {l : List (κ × α)} {k : κ} {v : α}
    (h : mlookup (l.filter p) k = some v) : p (k, v) = true := by
  induction l with
  | nil => simp [mlookup] at h
  | cons q t ih =>
    by_cases hq : p q = true
    · rw [List.filter_cons, if_pos hq] at h
      obtain ⟨k₁, v₁⟩ := q
      by_cases hk : k₁ = k
      · subst hk
        rw [mlookup, if_pos rfl] at h
        cases h
        exact hq
      · rw [mlookup, if_neg hk] at h
        exact ih h
    · rw [List.filter_cons, if_neg hq] at h
      exact ih h

theorem deleteToken_refreshTokenStore (st : TokenStore) (t : String) :
    (deleteToken st t).refreshTokenStore = st.refreshTokenStore := by
  unfold deleteToken
  cases mlookup st.tokenStore t with
  | none => rfl
  | some td =>
    dsimp only
    split
    · rfl
    · split <;> rfl

theorem deleteToken_authorizationCodes (st : TokenStore) (t : String) :
    (deleteToken st t).authorizationCodes = st.authorizationCodes := by
  unfold deleteToken
  cases mlookup st.tokenStore t with
  | none => rfl
  | some td =>
    dsimp only
    split
    · rfl
    · split <;> rfl

theorem mlookup_deleteToken_tokenStore (st : TokenStore) (t k : String) :
    mlookup (deleteToken st t).tokenStore k =
      if k = t then none else mlookup st.tokenStore k := by
  unfold deleteToken
  cases hm : mlookup st.tokenStore t with
  | none =>
    by_cases hk : k = t
    · subst hk
      simp [hm]
    · simp [hk]
  | some td =>
    dsimp only
    split
    · exact mlookup_merase st.tokenStore t k
    · split <;> exact mlookup_merase st.tokenStore t k

theorem getAccessToken_some (st : TokenStore) (now : Nat) (t : String) (d : AccessTokenData)
    (h : mlookup st.tokenStore t = some d) (hx : isExpired now d = false) :
    getAccessToken st now t = (some d, st) := by
  unfold getAccessToken
  rw [h]
  unfold isExpired at hx
  cases he : d.expiresAt with
  | none => simp [he]
  | some e =>
    rw [he] at hx
    simp at hx
    simp [he, Nat.not_lt_of_le hx]

theorem storeAccessToken_tokenStore (st : TokenStore) (now : Nat)
    (accessToken refreshToken apiKey userId clientId : String)
    (scopes : List String) (expiresAt : Option Nat) :
    (storeAccessToken st now accessToken refreshToken apiKey userId clientId scopes expiresAt).tokenStore =
      mset st.tokenStore accessToken ⟨apiKey, userId, clientId, scopes, refreshToken, expiresAt, now⟩ := by
  unfold storeAccessToken
  split <;> rfl

theorem storeAccessToken_refreshTokenStore (st : TokenStore) (now : Nat)
    (accessToken refreshToken apiKey userId clientId : String)
    (scopes : List String) (expiresAt : Option Nat) (h : refreshToken ≠ "") :
    (storeAccessToken st now accessToken refreshToken apiKey userId clientId scopes expiresAt).refreshTokenStore =
      mset st.refreshTokenStore refreshToken ⟨userId, clientId, scopes, accessToken, now⟩ := by
  unfold storeAccessToken
  simp [h]

theorem storeAccessToken_authorizationCodes (st : TokenStore) (now : Nat)
    (accessToken refreshToken apiKey userId clientId : String)
    (scopes : List String) (expiresAt : Option Nat) :
    (storeAccessToken st now accessToken refreshToken apiKey userId clientId scopes expiresAt).authorizationCodes =
      st.authorizationCodes := by
  unfold storeAccessToken
  split <;> rfl

theorem foldl_deleteToken_refreshTokenStore (toDelete : List String) (st : TokenStore) :
    (toDelete.foldl (fun acc token => deleteToken acc token) st).refreshTokenStore =
      st.refreshTokenStore := by
  induction toDelete generalizing st with
  | nil => rfl
  | cons e t ih =>
    rw [List.foldl_cons, ih, deleteToken_refreshTokenStore]

theorem foldl_deleteToken_authorizationCodes (toDelete : List String) (st : TokenStore) :
    (toDelete.foldl (fun acc token => deleteToken acc token) st).authorizationCodes =
      st.authorizationCodes := by
  induction toDelete generalizing st with
  | nil => rfl
  | cons e t ih =>
    rw [List.foldl_cons, ih, deleteToken_authorizationCodes]

theorem mlookup_foldl_deleteToken (toDelete : List String) (st : TokenStore) (k : String) :
    mlookup (toDelete.foldl (fun acc token => deleteToken acc token) st).tokenStore k =
      if k ∈ toDelete then none else mlookup st.tokenStore k := by
  induction toDelete generalizing st with
  | nil => simp
  | cons e t ih =>
    rw [List.foldl_cons, ih]
    by_cases hk : k ∈ t
    · simp [hk]
    · rw [if_neg hk, mlookup_deleteToken_tokenStore]
      by_cases hke : k = e
      · simp [hke]
      · simp [hke, hk]

theorem take_bearer (t : String) : ("Bearer " ++ t).take 7 = "Bearer " := by
  have h₂ : ("Bearer " ++ t).take 7 = String.mk (("Bearer " ++ t).data.take 7) :=
    String.take_eq _ _
  rw [h₂, String.data_append]
  have h₃ : ("Bearer ".data).length = 7 := by decide
  rw [← h₃, List.take_left]

theorem drop_bearer (t : String) : ("Bearer " ++ t).drop 7 = t := by
  have h₂ : ("Bearer " ++ t).drop 7 = String.mk (("Bearer " ++ t).data.drop 7) :=
    String.drop_eq _ _
  rw [h₂, String.data_append]
  have h₃ : ("Bearer ".data).length = 7 := by decide
  rw [← h₃, List.drop_left]

/-! ## C1 — PKCE verification in consumeAuthorizationCode -/

/-- C1 counterexample: with a stored challenge method other than `"S256"`,
`consumeAuthorizationCode` skips PKCE verification entirely and consumes the
code even though the digest of the presented verifier (here a digest function
that never returns the stored challenge) does not match — refuting both
"succeeds iff the hash of the verifier equals the stored challenge" and
"only the S256 challenge method is accepted". -/
theorem consume_plain_method_skips_pkce :
    ((consumeAuthorizationCode (fun _ => "nohash") plainMethodStore 5 "codeA" "anyVerifier").1).isSome = true
    ∧ (fun _ => "nohash" : String → String) "anyVerifier" ≠ "challengeX" := by
  constructor
  · rfl
  · decide

/-- C1 amended: for a stored code whose challenge method is `"S256"` (the only
kind the `/oauth/authorize` flow ever stores), consumption succeeds iff the
code is unexpired and the digest of the verifier equals the stored challenge;
a mismatch leaves the store unchanged and returns `none`; a missing code also
returns `none`; and at `POST /oauth/token` both failures produce the identical
`invalid_grant` response, so callers cannot distinguish them. -/
theorem consume_s256_pkce_iff (hash : String → String) (st : TokenStore) (now : Nat)
    (code verifier : String) (cd : AuthCodeData)
    (hcd : mlookup st.authorizationCodes code = some cd)
    (hm : cd.codeChallengeMethod = "S256") :
    (((consumeAuthorizationCode hash st now code verifier).1).isSome ↔
      (¬ now > cd.expiresAt ∧ hash verifier = cd.codeChallenge))
    ∧ (¬ now > cd.expiresAt → hash verifier ≠ cd.codeChallenge →
        consumeAuthorizationCode hash st now code verifier = (none, st))
    ∧ (∀ st₂ : TokenStore, mlookup st₂.authorizationCodes code = none →
        consumeAuthorizationCode hash st₂ now code verifier = (none, st₂))
    ∧ (∀ redirectUri nAT nRT : String, code ≠ "" → redirectUri ≠ "" → verifier ≠ "" →
        ¬ now > cd.expiresAt → hash verifier ≠ cd.codeChallenge →
        ∀ st₂ : TokenStore, mlookup st₂.authorizationCodes code = none →
        (authCodeGrant hash st now code redirectUri verifier nAT nRT).1 =
            .oauthError 400 "invalid_grant" "Invalid or expired authorization code"
          ∧ (authCodeGrant hash st₂ now code redirectUri verifier nAT nRT).1 =
            .oauthError 400 "invalid_grant" "Invalid or expired authorization code") := by
  refine ⟨?_, ?_, ?_, ?_⟩
  · unfold consumeAuthorizationCode
    rw [hcd]
    by_cases hexp : now > cd.expiresAt
    · simp [hexp]
    · by_cases hh : hash verifier = cd.codeChallenge
      · simp [hexp, hh]
      · simp [hexp, hm, hh]
  · intro hexp hh
    unfold consumeAuthorizationCode
    rw [hcd]
    simp [hexp, hm, hh]
  · intro st₂ h₂
    unfold consumeAuthorizationCode
    rw [h₂]
  · intro redirectUri nAT nRT hc hr hv hexp hh st₂ h₂
    have hcons : consumeAuthorizationCode hash st now code verifier = (none, st) := by
      unfold consumeAuthorizationCode
      rw [hcd]
      simp [hexp, hm, hh]
    have hcons₂ : consumeAuthorizationCode hash st₂ now code verifier = (none, st₂) := by
      unfold consumeAuthorizationCode
      rw [h₂]
    constructor
    · unfold authCodeGrant
      rw [if_neg (by simp [hc, hr, hv]), hcons]
    · unfold authCodeGrant
      rw [if_neg (by simp [hc, hr, hv]), hcons₂]

/-- Witness for `consume_s256_pkce_iff` at a concrete store: a wrong verifier
is rejected and the store is unchanged. -/
theorem consume_s256_pkce_iff_witness :
    consumeAuthorizationCode (fun s => "H-" ++ s) s256Store 5 "c1" "w" = (none, s256Store) :=
  ((consume_s256_pkce_iff (fun s => "H-" ++ s) s256Store 5 "c1" "w" _ rfl rfl).2.1)
    (by decide) (by decide)

/-! ## C2 — sessions are principal-exclusive -/

/-- C2: `getOrCreateSession` never hands a session to a different principal —
(1) an existing session whose stored principal differs from the caller's is a
hard failure; (2) with no authenticated principal no session is ever created;
(3) whenever a caller with a principal obtains a session (existing or fresh),
that session's stored principal is the caller's. -/
theorem getOrCreateSession_principal_exclusive (sessions : List (String × Session))
    (sessionId : String) (u : AuthUser) (now : Nat) :
    (∀ session, mlookup sessions sessionId = some session → session.userId ≠ u.userId →
      getOrCreateSession sessions sessionId (some u) now =
        .error "Session belongs to a different user")
    ∧ (mlookup sessions sessionId = none →
      getOrCreateSession sessions sessionId none now =
        .error "Authentication required. Please authenticate via OAuth first.")
    ∧ (∀ s rest, getOrCreateSession sessions sessionId (some u) now = .ok (s, rest) →
        s.userId = u.userId) := by
  refine ⟨?_, ?_, ?_⟩
  · intro session hs hne
    unfold getOrCreateSession
    rw [hs]
    simp [hne]
  · intro hnone
    unfold getOrCreateSession
    rw [hnone]
  · intro s rest hok
    unfold getOrCreateSession at hok
    cases hs : mlookup sessions sessionId with
    | some session =>
      rw [hs] at hok
      by_cases hne : session.userId ≠ u.userId
      · simp [hne] at hok
      · simp [hne] at hok
        push_neg at hne
        rw [← hok.1, hne]
    | none =>
      rw [hs] at hok
      by_cases hk : u.apiKey = ""
      · simp [hk] at hok
      · simp [hk] at hok
        rw [← hok.1]

/-- Witness for `getOrCreateSession_principal_exclusive`: `bob` presenting
`alice`'s session id is rejected, and an unauthenticated caller cannot create
a session. -/
theorem getOrCreateSession_principal_exclusive_witness :
    getOrCreateSession aliceSessions "sid1" (some ⟨"bob", "keyB", "cl", [], "tok"⟩) 5 =
      .error "Session belongs to a different user"
    ∧ getOrCreateSession aliceSessions "sid2" none 5 =
      .error "Authentication required. Please authenticate via OAuth first." := by
  constructor
  · exact (getOrCreateSession_principal_exclusive aliceSessions "sid1"
      ⟨"bob", "keyB", "cl", [], "tok"⟩ 5).1 _ rfl (by decide)
  · exact (getOrCreateSession_principal_exclusive aliceSessions "sid2"
      ⟨"bob", "keyB", "cl", [], "tok"⟩ 5).2.1 rfl

/-! ## C3 — refresh-token rotation -/

/-- C3: a successful `refresh_token` grant returns a fresh pair, after which
the old refresh token no longer resolves via `getRefreshToken`, the old
access token no longer resolves via `getAccessToken` (at any time), and the
new access/refresh pair is stored and linked.  The freshness hypotheses
state that the generated tokens differ from the old ones (they are random
256-bit strings and a freshly signed JWT in the source). -/
theorem refresh_rotation (st : TokenStore) (now : Nat)
    (refreshToken newAT newRT : String) (rd : RefreshTokenData) (old : AccessTokenData)
    (hne : refreshToken ≠ "")
    (hrd : mlookup st.refreshTokenStore refreshToken = some rd)
    (hold : mlookup st.tokenStore rd.accessToken = some old)
    (hnx : isExpired now old = false)
    (hfreshR : newRT ≠ refreshToken)
    (hnrt : newRT ≠ "")
    (hfreshA : newAT ≠ rd.accessToken) :
    (refreshGrant st now refreshToken newAT newRT).1 =
      .success newAT "Bearer" 3600 newRT (String.intercalate " " rd.scopes)
    ∧ getRefreshToken (refreshGrant st now refreshToken newAT newRT).2 refreshToken = none
    ∧ (∀ now₂ : Nat,
        (getAccessToken (refreshGrant st now refreshToken newAT newRT).2 now₂ rd.accessToken).1 = none)
    ∧ mlookup ((refreshGrant st now refreshToken newAT newRT).2).tokenStore newAT =
        some ⟨old.apiKey, rd.userId, rd.clientId, rd.scopes, newRT, none, now⟩
    ∧ getRefreshToken (refreshGrant st now refreshToken newAT newRT).2 newRT =
        some ⟨rd.userId, rd.clientId, rd.scopes, newAT, now⟩ := by
  have hga := getAccessToken_some st now rd.accessToken old hold hnx
  have hmain : refreshGrant st now refreshToken newAT newRT =
      (.success newAT "Bearer" 3600 newRT (String.intercalate " " rd.scopes),
       revokeRefreshToken
         (storeAccessToken st now newAT newRT old.apiKey rd.userId rd.clientId rd.scopes none)
         refreshToken) := by
    unfold refreshGrant
    rw [if_neg hne, show getRefreshToken st refreshToken = some rd from hrd]
    dsimp only
    rw [hga]
  have h₂token := storeAccessToken_tokenStore st now newAT newRT
    old.apiKey rd.userId rd.clientId rd.scopes none
  have h₂refresh := storeAccessToken_refreshTokenStore st now newAT newRT
    old.apiKey rd.userId rd.clientId rd.scopes none hnrt
  have hlook : mlookup (storeAccessToken st now newAT newRT old.apiKey rd.userId rd.clientId
      rd.scopes none).refreshTokenStore refreshToken = some rd := by
    rw [h₂refresh, mlookup_mset_ne _ _ (Ne.symm hfreshR)]
    exact hrd
  have hrev : revokeRefreshToken
      (storeAccessToken st now newAT newRT old.apiKey rd.userId rd.clientId rd.scopes none)
      refreshToken =
      { deleteToken (storeAccessToken st now newAT newRT old.apiKey rd.userId rd.clientId
          rd.scopes none) rd.accessToken with
        refreshTokenStore :=
          merase (deleteToken (storeAccessToken st now newAT newRT old.apiKey rd.userId
            rd.clientId rd.scopes none) rd.accessToken).refreshTokenStore refreshToken } := by
    unfold revokeRefreshToken
    rw [hlook]
  refine ⟨by rw [hmain], ?_, ?_, ?_, ?_⟩
  · rw [hmain]
    unfold getRefreshToken
    rw [hrev]
    exact mlookup_merase_self _ _
  · intro now₂
    rw [hmain, hrev]
    unfold getAccessToken
    rw [show ∀ st₀ : TokenStore, ∀ r, ({ st₀ with refreshTokenStore := r } : TokenStore).tokenStore
      = st₀.tokenStore from fun _ _ => rfl]
    rw [mlookup_deleteToken_tokenStore]
    simp
  · rw [hmain, hrev]
    rw [show ∀ st₀ : TokenStore, ∀ r, ({ st₀ with refreshTokenStore := r } : TokenStore).tokenStore
      = st₀.tokenStore from fun _ _ => rfl]
    rw [mlookup_deleteToken_tokenStore]
    rw [if_neg hfreshA, h₂token, mlookup_mset_self]
  · rw [hmain]
    unfold getRefreshToken
    rw [hrev]
    rw [show ∀ st₀ : TokenStore, ∀ r, ({ st₀ with refreshTokenStore := r } : TokenStore).refreshTokenStore
      = r from fun _ _ => rfl]
    rw [mlookup_merase_ne _ hfreshR, deleteToken_refreshTokenStore, h₂refresh, mlookup_mset_self]

/-- Witness for `refresh_rotation`: rotating `"RT"` at the concrete store
invalidates the old pair. -/
theorem refresh_rotation_witness :
    getRefreshToken (refreshGrant oldPairStore 6 "RT" "AT2" "RT2").2 "RT" = none
    ∧ (getAccessToken (refreshGrant oldPairStore 6 "RT" "AT2" "RT2").2 7 "AT").1 = none := by
  have h := refresh_rotation oldPairStore 6 "RT" "AT2" "RT2"
    ⟨"u1", "cl", ["mcp:read"], "AT", 5⟩ ⟨"k1", "u1", "cl", ["mcp:read"], "RT", none, 5⟩
    (by decide) rfl rfl rfl (by decide) (by decide) (by decide)
  exact ⟨h.2.1, h.2.2.1 7⟩

/-! ## C4 — authorization codes are single-use -/

/-- C4: once `consumeAuthorizationCode` succeeds, the code is deleted, so any
later consumption attempt with the same code — any verifier, any digest
function, any time — returns `none` and leaves the store unchanged. -/
theorem consume_single_use (hash : String → String) (st : TokenStore) (now : Nat)
    (code verifier : String) (cd : AuthCodeData)
    (h : (consumeAuthorizationCode hash st now code verifier).1 = some cd) :
    ∀ (hash₂ : String → String) (now₂ : Nat) (verifier₂ : String),
      consumeAuthorizationCode hash₂ (consumeAuthorizationCode hash st now code verifier).2
          now₂ code verifier₂ =
        (none, (consumeAuthorizationCode hash st now code verifier).2) := by
  intro hash₂ now₂ verifier₂
  have hsnd : ((consumeAuthorizationCode hash st now code verifier).2).authorizationCodes =
      merase st.authorizationCodes code := by
    unfold consumeAuthorizationCode at h ⊢
    cases hcd : mlookup st.authorizationCodes code with
    | none =>
      rw [hcd] at h
      simp at h
    | some cd₀ =>
      rw [hcd] at h
      by_cases hexp : now > cd₀.expiresAt
      · simp [hexp] at h
      · by_cases hfail : cd₀.codeChallengeMethod = "S256" ∧ hash verifier ≠ cd₀.codeChallenge
        · simp [hexp, hfail] at h
        · simp [hexp, hfail]
  have hnone : mlookup ((consumeAuthorizationCode hash st now code verifier).2).authorizationCodes code = none := by
    rw [hsnd, mlookup_merase_self]
  generalize (consumeAuthorizationCode hash st now code verifier).2 = X at hnone ⊢
  unfold consumeAuthorizationCode
  rw [hnone]

/-- Witness for `consume_single_use`: concrete double consumption with the
correct verifier both times. -/
theorem consume_single_use_witness :
    consumeAuthorizationCode (fun s => "H-" ++ s)
        (consumeAuthorizationCode (fun s => "H-" ++ s) s256Store 5 "c1" "v").2 6 "c1" "v" =
      (none, (consumeAuthorizationCode (fun s => "H-" ++ s) s256Store 5 "c1" "v").2) :=
  consume_single_use (fun s => "H-" ++ s) s256Store 5 "c1" "v"
    ⟨"u1", "k1", "cl", "https://a/cb", "H-v", "S256", ["mcp:read"], 1000, 0⟩ (by decide)
    (fun s => "H-" ++ s) 6 "v"

/-! ## C5 — the chunk loop stops after the first delivered response -/

/-- C5 failing input evaluated: with requests 1 and 2 pending and one stdout
chunk `"r1\nr2\n"` holding both complete response lines, `handleResponse`
delivers only id 1 and returns via the early `return`; the complete line
`"r2"` is discarded (it is no longer in the buffer either), so request 2
stays pending and will only ever time out — the claim says every complete
line in the chunk is processed. -/
theorem handleResponse_drops_lines_after_delivery :
    handleResponse twoRespParse twoPendingSession "r1\nr2\n" =
      ({ twoPendingSession with pendingRequests := [(2, ⟨"tools/call", 10⟩)] },
       [.respond 1 false])
    ∧ (handleResponse twoRespParse twoPendingSession "r1\nr2\n").2.length = 1
    ∧ mlookup (handleResponse twoRespParse twoPendingSession "r1\nr2\n").1.pendingRequests 2 =
        some ⟨"tools/call", 10⟩
    ∧ (handleResponse twoRespParse twoPendingSession "r1\nr2\n").1.responseBuffer = "" := by
  refine ⟨?_, by decide, by decide, by decide⟩
  decide

/-! ## C6 — a fired request timeout is scoped to one pending entry -/

/-- C6: when the per-request timeout for `msgId` fires while that id is
pending, exactly that caller receives the `-32001` error and exactly that
entry is removed; every sibling pending entry and all other session state is
untouched; and a late subprocess response carrying the timed-out id then
finds no pending entry and is dropped with no effect. -/
theorem fireResponseTimeout_scoped (s : Session) (msgId : Nat) (pr : PendingRequest)
    (h : mlookup s.pendingRequests msgId = some pr) :
    (fireResponseTimeout s msgId).2 = some (msgId, -32001)
    ∧ mlookup ((fireResponseTimeout s msgId).1).pendingRequests msgId = none
    ∧ (∀ j, j ≠ msgId →
        mlookup ((fireResponseTimeout s msgId).1).pendingRequests j =
          mlookup s.pendingRequests j)
    ∧ ((fireResponseTimeout s msgId).1).responseBuffer = s.responseBuffer
    ∧ ((fireResponseTimeout s msgId).1).sseOpen = s.sseOpen
    ∧ ((fireResponseTimeout s msgId).1).initialized = s.initialized
    ∧ ((fireResponseTimeout s msgId).1).userId = s.userId
    ∧ (∀ (parseJson : String → Option JsonRpcMsg) (line : String) (msg : JsonRpcMsg),
        parseJson (strTrim line) = some msg → msg.id = some msgId →
        processLine parseJson (fireResponseTimeout s msgId).1 line =
          ((fireResponseTimeout s msgId).1, [], false)) := by
  have hfire : fireResponseTimeout s msgId =
      ({ s with pendingRequests := merase s.pendingRequests msgId }, some (msgId, -32001)) := by
    unfold fireResponseTimeout
    rw [h]
  rw [hfire]
  refine ⟨rfl, mlookup_merase_self _ _, ?_, rfl, rfl, rfl, rfl, ?_⟩
  · intro j hj
    exact mlookup_merase_ne _ hj
  · intro parseJson line msg hparse hid
    unfold processLine
    by_cases htrim : strTrim line = ""
    · simp [htrim]
    · simp only [htrim, if_neg]
      rw [hparse]
      simp [hid, mlookup_merase_self]

/-- Witness for `fireResponseTimeout_scoped` at a concrete session: id 1
times out, id 2 is untouched, and a late line answering id 1 is dropped. -/
theorem fireResponseTimeout_scoped_witness :
    (fireResponseTimeout twoPendingSession 1).2 = some (1, -32001)
    ∧ mlookup ((fireResponseTimeout twoPendingSession 1).1).pendingRequests 2 =
        some ⟨"tools/call", 10⟩
    ∧ processLine (fun l => if l = "late1" then some ⟨some 1, none, false⟩ else none)
        (fireResponseTimeout twoPendingSession 1).1 "late1" =
        ((fireResponseTimeout twoPendingSession 1).1, [], false) := by
  have h := fireResponseTimeout_scoped twoPendingSession 1 ⟨"tools/call", 0⟩ rfl
  refine ⟨h.1, ?_, ?_⟩
  · rw [h.2.2.1 2 (by decide)]
    rfl
  · exact h.2.2.2.2.2.2.2 (fun l => if l = "late1" then some ⟨some 1, none, false⟩ else none)
      "late1" ⟨some 1, none, false⟩ rfl rfl

/-! ## C7 — what the periodic sweep actually removes -/

/-- C7 counterexample: the in-memory backend's sweep removes the expired
access token but leaves the expired authorization code and the orphaned
refresh token in place — refuting "removes … expired authorization codes,
and refresh tokens orphaned by their access token's removal, in both the
in-memory and the persistent backend". -/
theorem cleanup_in_memory_leaves_codes_and_refresh :
    mlookup (cleanupExpiredTokens staleStore 100).tokenStore "at1" = none
    ∧ mlookup (cleanupExpiredTokens staleStore 100).authorizationCodes "ac1" =
        some ⟨"u1", "k1", "cl", "https://a/cb", "X", "S256", [], 10, 0⟩
    ∧ mlookup (cleanupExpiredTokens staleStore 100).refreshTokenStore "rt1" =
        some ⟨"u1", "cl", [], "gone", 0⟩
    ∧ 100 > 10 := by
  refine ⟨by decide, by decide, by decide, by decide⟩

/-- C7 amended: on every sweep, the in-memory backend removes exactly the
expired access tokens and leaves `refreshTokenStore` and
`authorizationCodes` untouched (codes are deleted by per-code timers
instead); only the SQLite backend's sweep also removes orphaned refresh
tokens and expired authorization codes. -/
theorem cleanup_sweep_spec (st : TokenStore) (db : DBState) (now : Nat) :
    (∀ (token : String) (d : AccessTokenData),
      mlookup (cleanupExpiredTokens st now).tokenStore token = some d →
        isExpired now d = false)
    ∧ (∀ (token : String) (d : AccessTokenData), mlookup st.tokenStore token = some d →
        isExpired now d = true →
        mlookup (cleanupExpiredTokens st now).tokenStore token = none)
    ∧ (cleanupExpiredTokens st now).refreshTokenStore = st.refreshTokenStore
    ∧ (cleanupExpiredTokens st now).authorizationCodes = st.authorizationCodes
    ∧ (∀ (k : String) (d : AccessTokenData),
        mlookup (cleanupExpiredTokensDB db now).accessTokens k = some d →
          ∀ e, d.expiresAt = some e → ¬ e < now)
    ∧ (∀ (k : String) (rd : RefreshTokenData),
        mlookup (cleanupExpiredTokensDB db now).refreshTokens k = some rd →
          (mlookup (cleanupExpiredTokensDB db now).accessTokens rd.accessToken).isSome = true)
    ∧ (∀ (k : String) (cd : AuthCodeData),
        mlookup (cleanupExpiredTokensDB db now).authorizationCodes k = some cd →
          ¬ cd.expiresAt < now) := by
  have hmem : ∀ (token : String) (d : AccessTokenData),
      mlookup st.tokenStore token = some d → isExpired now d = true →
      token ∈ (st.tokenStore.filter (fun p => isExpired now p.2)).map (fun p => p.1) := by
    intro token d hml hx
    have hin : (token, d) ∈ st.tokenStore.filter (fun p => isExpired now p.2) :=
      List.mem_filter.2 ⟨mlookup_some_mem hml, by simpa using hx⟩
    exact List.mem_map.2 ⟨(token, d), hin, rfl⟩
  refine ⟨?_, ?_, ?_, ?_, ?_, ?_, ?_⟩
  · intro token d h
    unfold cleanupExpiredTokens at h
    rw [mlookup_foldl_deleteToken] at h
    by_cases hin : token ∈ (st.tokenStore.filter (fun p => isExpired now p.2)).map (fun p => p.1)
    · rw [if_pos hin] at h
      exact absurd h (by simp)
    · rw [if_neg hin] at h
      by_cases hx : isExpired now d = true
      · exact absurd (hmem token d h hx) hin
      · simpa using hx
  · intro token d hml hx
    unfold cleanupExpiredTokens
    rw [mlookup_foldl_deleteToken, if_pos (hmem token d hml hx)]
  · exact foldl_deleteToken_refreshTokenStore _ _
  · exact foldl_deleteToken_authorizationCodes _ _
  · intro k d h e he
    rw [show (cleanupExpiredTokensDB db now).accessTokens =
      db.accessTokens.filter (fun p =>
        match p.2.expiresAt with
        | some e₂ => ¬ e₂ < now
        | none => true) from rfl] at h
    have hp := mlookup_filter_some h
    rw [he] at hp
    simpa using hp
  · intro k rd h
    rw [show (cleanupExpiredTokensDB db now).refreshTokens =
      db.refreshTokens.filter (fun p =>
        (mlookup (cleanupExpiredTokensDB db now).accessTokens p.2.accessToken).isSome)
      from rfl] at h
    exact mlookup_filter_some h
  · intro k cd h
    rw [show (cleanupExpiredTokensDB db now).authorizationCodes =
      db.authorizationCodes.filter (fun p => ¬ p.2.expiresAt < now) from rfl] at h
    have hp := mlookup_filter_some h
    simpa using hp

/-- Witness for `cleanup_sweep_spec` at the concrete stale store: the expired
access token is removed while the code/refresh maps are returned unchanged. -/
theorem cleanup_sweep_spec_witness :
    mlookup (cleanupExpiredTokens staleStore 100).tokenStore "at1" = none
    ∧ (cleanupExpiredTokens staleStore 100).authorizationCodes =
        staleStore.authorizationCodes := by
  have h := cleanup_sweep_spec staleStore staleDB 100
  exact ⟨h.2.1 "at1" ⟨"k1", "u1", "cl", [], "", some 10, 0⟩ rfl (by decide), h.2.2.2.1⟩

/-! ## C8 — malformed subprocess lines are dropped and contained -/

/-- C8: a line that `JSON.parse` rejects has no effect at all — the session
state is unchanged, nothing is delivered, no pending request is satisfied or
failed, the loop is not aborted, and processing of the remaining lines of the
chunk proceeds exactly as if the malformed line were absent. -/
theorem processLine_malformed_dropped (parseJson : String → Option JsonRpcMsg)
    (s : Session) (line : String) (h : parseJson (strTrim line) = none) :
    processLine parseJson s line = (s, [], false)
    ∧ (∀ rest, processLines parseJson s (line :: rest) = processLines parseJson s rest) := by
  have h₁ : processLine parseJson s line = (s, [], false) := by
    unfold processLine
    by_cases htrim : strTrim line = ""
    · simp [htrim]
    · simp [htrim, h]
  refine ⟨h₁, ?_⟩
  intro rest
  conv_lhs => rw [processLines]
  rw [h₁]
  simp [processLines]

/-- Witness for `processLine_malformed_dropped`: a non-JSON stderr-style line
leaves the two pending requests and the whole session untouched and the next
line of the chunk is still processed. -/
theorem processLine_malformed_dropped_witness :
    processLine (fun l => if l = "r2" then some ⟨some 2, none, false⟩ else none)
        twoPendingSession "Some debug output" =
      (twoPendingSession, [], false)
    ∧ processLines (fun l => if l = "r2" then some ⟨some 2, none, false⟩ else none)
        twoPendingSession ["Some debug output", "r2"] =
      processLines (fun l => if l = "r2" then some ⟨some 2, none, false⟩ else none)
        twoPendingSession ["r2"] := by
  have h := processLine_malformed_dropped
    (fun l => if l = "r2" then some ⟨some 2, none, false⟩ else none)
    twoPendingSession "Some debug output" (by decide)
  exact ⟨h.1, h.2 ["r2"]⟩

/-! ## C9 — issued access tokens are stored without expiry -/

/-- C9: every access-token record created by `POST /oauth/token` — by the
`authorization_code` grant and by the `refresh_token` grant alike — is stored
with `expiresAt = none` (both branches omit the `expiresAt` argument of
`storeAccessToken`), so `getAccessToken` returns the record at every later
time, and `verifyBearerToken` still authenticates the bearer when JWT
verification fails (`verifyJwt` returning `none` models the JWT past its
1-hour `exp`) via the opaque-lookup fallback — the advertised
`expires_in: 3600` has no effect on the stored record's lifetime.  The first
hypothesis block is a successful code exchange, the second a successful
refresh exchange (freshness of the generated tokens as in C3). -/
theorem issued_token_never_expires (hash : String → String) (st : TokenStore) (now : Nat)
    (code redirectUri verifier nAT nRT : String) (cd : AuthCodeData)
    (hc : code ≠ "") (hr : redirectUri ≠ "") (hv : verifier ≠ "")
    (hcd : mlookup st.authorizationCodes code = some cd)
    (hexp : ¬ now > cd.expiresAt)
    (_hm : cd.codeChallengeMethod = "S256")
    (hh : hash verifier = cd.codeChallenge)
    (hru : cd.redirectUri = redirectUri)
    (st₂ : TokenStore) (now₂ : Nat) (refreshToken rAT rRT : String)
    (rd : RefreshTokenData) (old : AccessTokenData)
    (h₂ne : refreshToken ≠ "")
    (h₂rd : mlookup st₂.refreshTokenStore refreshToken = some rd)
    (h₂old : mlookup st₂.tokenStore rd.accessToken = some old)
    (h₂nx : isExpired now₂ old = false)
    (h₂freshR : rRT ≠ refreshToken)
    (h₂rrt : rRT ≠ "")
    (h₂freshA : rAT ≠ rd.accessToken) :
    (authCodeGrant hash st now code redirectUri verifier nAT nRT).1 =
      .success nAT "Bearer" 3600 nRT (String.intercalate " " cd.scopes)
    ∧ mlookup ((authCodeGrant hash st now code redirectUri verifier nAT nRT).2).tokenStore nAT =
        some ⟨cd.apiKey, cd.userId, cd.clientId, cd.scopes, nRT, none, now⟩
    ∧ (∀ later : Nat,
        (getAccessToken (authCodeGrant hash st now code redirectUri verifier nAT nRT).2 later nAT).1 =
          some ⟨cd.apiKey, cd.userId, cd.clientId, cd.scopes, nRT, none, now⟩)
    ∧ (∀ later : Nat,
        (verifyBearerToken (fun _ => none)
            (authCodeGrant hash st now code redirectUri verifier nAT nRT).2 later
            (some ("Bearer " ++ nAT))).1 =
          .authorized ⟨cd.userId, cd.apiKey, cd.clientId, cd.scopes, nAT⟩)
    ∧ mlookup ((refreshGrant st₂ now₂ refreshToken rAT rRT).2).tokenStore rAT =
        some ⟨old.apiKey, rd.userId, rd.clientId, rd.scopes, rRT, none, now₂⟩
    ∧ (∀ later : Nat,
        (getAccessToken (refreshGrant st₂ now₂ refreshToken rAT rRT).2 later rAT).1 =
          some ⟨old.apiKey, rd.userId, rd.clientId, rd.scopes, rRT, none, now₂⟩)
    ∧ (∀ later : Nat,
        (verifyBearerToken (fun _ => none)
            (refreshGrant st₂ now₂ refreshToken rAT rRT).2 later
            (some ("Bearer " ++ rAT))).1 =
          .authorized ⟨rd.userId, old.apiKey, rd.clientId, rd.scopes, rAT⟩) := by
  have hcons : consumeAuthorizationCode hash st now code verifier =
      (some cd, { st with authorizationCodes := merase st.authorizationCodes code }) := by
    unfold consumeAuthorizationCode
    rw [hcd]
    simp [hexp, hh]
  have hmain : authCodeGrant hash st now code redirectUri verifier nAT nRT =
      (.success nAT "Bearer" 3600 nRT (String.intercalate " " cd.scopes),
       storeAccessToken { st with authorizationCodes := merase st.authorizationCodes code }
         now nAT nRT cd.apiKey cd.userId cd.clientId cd.scopes none) := by
    unfold authCodeGrant
    rw [if_neg (by simp [hc, hr, hv]), hcons]
    simp [hru]
  have hstore : mlookup ((authCodeGrant hash st now code redirectUri verifier nAT nRT).2).tokenStore nAT =
      some ⟨cd.apiKey, cd.userId, cd.clientId, cd.scopes, nRT, none, now⟩ := by
    rw [hmain, storeAccessToken_tokenStore, mlookup_mset_self]
  have hget : ∀ later : Nat,
      getAccessToken (authCodeGrant hash st now code redirectUri verifier nAT nRT).2 later nAT =
        (some ⟨cd.apiKey, cd.userId, cd.clientId, cd.scopes, nRT, none, now⟩,
         (authCodeGrant hash st now code redirectUri verifier nAT nRT).2) := by
    intro later
    exact getAccessToken_some _ later nAT _ hstore rfl
  have hga₂ := getAccessToken_some st₂ now₂ rd.accessToken old h₂old h₂nx
  have hmain₂ : refreshGrant st₂ now₂ refreshToken rAT rRT =
      (.success rAT "Bearer" 3600 rRT (String.intercalate " " rd.scopes),
       revokeRefreshToken
         (storeAccessToken st₂ now₂ rAT rRT old.apiKey rd.userId rd.clientId rd.scopes none)
         refreshToken) := by
    unfold refreshGrant
    rw [if_neg h₂ne, show getRefreshToken st₂ refreshToken = some rd from h₂rd]
    dsimp only
    rw [hga₂]
  have hlook₂ : mlookup (storeAccessToken st₂ now₂ rAT rRT old.apiKey rd.userId rd.clientId
      rd.scopes none).refreshTokenStore refreshToken = some rd := by
    rw [storeAccessToken_refreshTokenStore st₂ now₂ rAT rRT old.apiKey rd.userId rd.clientId
      rd.scopes none h₂rrt, mlookup_mset_ne _ _ (Ne.symm h₂freshR)]
    exact h₂rd
  have hrev₂ : revokeRefreshToken
      (storeAccessToken st₂ now₂ rAT rRT old.apiKey rd.userId rd.clientId rd.scopes none)
      refreshToken =
      { deleteToken (storeAccessToken st₂ now₂ rAT rRT old.apiKey rd.userId rd.clientId
          rd.scopes none) rd.accessToken with
        refreshTokenStore :=
          merase (deleteToken (storeAccessToken st₂ now₂ rAT rRT old.apiKey rd.userId
            rd.clientId rd.scopes none) rd.accessToken).refreshTokenStore refreshToken } := by
    unfold revokeRefreshToken
    rw [hlook₂]
  have hstore₂ : mlookup ((refreshGrant st₂ now₂ refreshToken rAT rRT).2).tokenStore rAT =
      some ⟨old.apiKey, rd.userId, rd.clientId, rd.scopes, rRT, none, now₂⟩ := by
    rw [hmain₂, hrev₂]
    rw [show ∀ st₀ : TokenStore, ∀ r, ({ st₀ with refreshTokenStore := r } : TokenStore).tokenStore
      = st₀.tokenStore from fun _ _ => rfl]
    rw [mlookup_deleteToken_tokenStore, if_neg h₂freshA, storeAccessToken_tokenStore,
      mlookup_mset_self]
  have hget₂ : ∀ later : Nat,
      getAccessToken (refreshGrant st₂ now₂ refreshToken rAT rRT).2 later rAT =
        (some ⟨old.apiKey, rd.userId, rd.clientId, rd.scopes, rRT, none, now₂⟩,
         (refreshGrant st₂ now₂ refreshToken rAT rRT).2) := by
    intro later
    exact getAccessToken_some _ later rAT _ hstore₂ rfl
  refine ⟨by rw [hmain], hstore, fun later => by rw [hget later], ?_,
    hstore₂, fun later => by rw [hget₂ later], ?_⟩
  · intro later
    unfold verifyBearerToken
    dsimp only
    rw [if_neg (by rw [take_bearer]; simp), drop_bearer, hget later]
  · intro later
    unfold verifyBearerToken
    dsimp only
    rw [if_neg (by rw [take_bearer]; simp), drop_bearer, hget₂ later]

/-- Witness for `issued_token_never_expires`: a concrete code exchange and a
concrete refresh exchange each store a non-expiring record, and both bearers
are still authenticated at a much later time with JWT verification failing. -/
theorem issued_token_never_expires_witness :
    (verifyBearerToken (fun _ => none)
        (authCodeGrant (fun s => "H-" ++ s) issuedCodeStore 5 "c1" "https://a/cb" "v" "AT" "RT").2
        999999999 (some ("Bearer " ++ "AT"))).1 =
      .authorized ⟨"u1", "k1", "cl", ["mcp:read"], "AT"⟩
    ∧ (verifyBearerToken (fun _ => none)
        (refreshGrant oldPairStore 6 "RT" "AT2" "RT2").2
        888888888 (some ("Bearer " ++ "AT2"))).1 =
      .authorized ⟨"u1", "k1", "cl", ["mcp:read"], "AT2"⟩ := by
  have h := issued_token_never_expires (fun s => "H-" ++ s) issuedCodeStore 5
    "c1" "https://a/cb" "v" "AT" "RT"
    ⟨"u1", "k1", "cl", "https://a/cb", "H-v", "S256", ["mcp:read"], 1000, 0⟩
    (by decide) (by decide) (by decide) rfl (by decide) rfl (by decide) rfl
    oldPairStore 6 "RT" "AT2" "RT2"
    ⟨"u1", "cl", ["mcp:read"], "AT", 5⟩ ⟨"k1", "u1", "cl", ["mcp:read"], "RT", none, 5⟩
    (by decide) rfl rfl rfl (by decide) (by decide) (by decide)
  exact ⟨h.2.2.2.1 999999999, h.2.2.2.2.2.2 888888888⟩

/-! ## C10 — a PKCE mismatch leaves the code stored and consumable -/

/-- C10: a consumption attempt whose verifier does not hash to the stored
challenge returns `none` with the store completely unchanged, so a later
attempt with a correct verifier (before expiry) still succeeds. -/
theorem consume_mismatch_preserves_code (hash : String → String) (st : TokenStore)
    (now : Nat) (code verifier : String) (cd : AuthCodeData)
    (hcd : mlookup st.authorizationCodes code = some cd)
    (hexp : ¬ now > cd.expiresAt)
    (hm : cd.codeChallengeMethod = "S256")
    (hmm : hash verifier ≠ cd.codeChallenge) :
    consumeAuthorizationCode hash st now code verifier = (none, st)
    ∧ (∀ (verifier₂ : String) (now₂ : Nat), ¬ now₂ > cd.expiresAt →
        hash verifier₂ = cd.codeChallenge →
        (consumeAuthorizationCode hash st now₂ code verifier₂).1 = some cd) := by
  constructor
  · unfold consumeAuthorizationCode
    rw [hcd]
    simp [hexp, hm, hmm]
  · intro verifier₂ now₂ hexp₂ hok
    unfold consumeAuthorizationCode
    rw [hcd]
    simp [hexp₂, hok]

/-- Witness for `consume_mismatch_preserves_code`: wrong verifier first, then
the correct one still succeeds on the unchanged store. -/
theorem consume_mismatch_preserves_code_witness :
    consumeAuthorizationCode (fun s => "H-" ++ s) s256Store 5 "c1" "w" = (none, s256Store)
    ∧ (consumeAuthorizationCode (fun s => "H-" ++ s) s256Store 7 "c1" "v").1 =
        some ⟨"u1", "k1", "cl", "https://a/cb", "H-v", "S256", ["mcp:read"], 1000, 0⟩ := by
  have h := consume_mismatch_preserves_code (fun s => "H-" ++ s) s256Store 5 "c1" "w"
    ⟨"u1", "k1", "cl", "https://a/cb", "H-v", "S256", ["mcp:read"], 1000, 0⟩
    rfl (by decide) rfl (by decide)
  exact ⟨h.1, h.2 "v" 7 (by decide) (by decide)⟩

end ORMcp
